import Mathlib

/-!
The interactive client of kim-bank, `src/main.go`.

A shallow embedding of the command-line client: the process-wide session
variable `currentUsername`, the menu dispatcher of `main`, the seven handlers
and the seven functions that issue the stored-procedure calls.

The world the program runs in:

* `stdin` is the sequence of runes not yet read from standard input.  Both
  the `bufio.Reader` of `main` and the `fmt.Scanf` calls of the handlers read
  from it; standard input is taken to be a terminal in line mode, so the
  buffered reader never holds more than the line it returns.
* `stdout` is the list of lines written with `fmt.Println`, oldest first.
* `logs` is the list of records written through the logger.
* `calls` is the list of `db.Exec` calls issued so far, oldest first.
* `db` is the database, an external collaborator: given the calls issued
  before and the present call it answers with an error text or with the
  rendering of a result.  The general theorems hold for an arbitrary `db`.

Library behaviour that the program relies on:

`fmt.Scanf` is given an `*os.File`, which has no `UnreadRune`; the scanner
then wraps it for the length of one call, and a rune that was read and pushed
back when the call ends is gone.  `scanfString`, `scanfInt` and
`scanfBadVerb` follow `doScanf`, `SkipSpace`, `convertString`, `scanInt` and
`scanNumber` of package `fmt` under that rule.  The program never looks at
the error returned by `Scanf`: a failed scan leaves the variable as it was.
-/

namespace KimBank

/-! ## Data model -/

/-- An argument handed to `db.Exec`. -/
inductive Arg where
  | str (s : String)
  | int (i : Int)
  deriving DecidableEq, Repr

/-- One `db.Exec` call: the statement text and its positional arguments. -/
structure Call where
  query : String
  args : List Arg
  deriving DecidableEq, Repr

/-- Severity of a logger record (`log.Infof`, `log.Errorf`). -/
inductive Level where
  | info
  | error
  deriving DecidableEq, Repr

/-- The process state together with its environment. -/
structure World where
  currentUsername : String
  stdin : List Char
  stdout : List String
  logs : List (Level × String)
  calls : List Call
  db : List Call → Call → Except String String

/-- The constant `client` of type `accountType`. -/
def client : String := "client"

/-- The constant `employee` of type `accountType`. -/
def employee : String := "employee"

/-! ## Library functions used by the program -/

/-- White space as `fmt` and `unicode.IsSpace` define it. -/
def isSpace (c : Char) : Bool :=
  let n := c.toNat
  (0x09 ≤ n && n ≤ 0x0d) || n == 0x20 || n == 0x85 || n == 0xa0 || n == 0x1680 ||
  (0x2000 ≤ n && n ≤ 0x200a) || n == 0x2028 || n == 0x2029 || n == 0x202f ||
  n == 0x205f || n == 0x3000

/-- The decimal digits accepted by `scanNumber` for the verb `%d`. -/
def isDigit (c : Char) : Bool :=
  let n := c.toNat
  0x30 ≤ n && n ≤ 0x39

/-- Go's `fmt.Println`: append one line to standard output. -/
def println (msg : String) (w : World) : World :=
  { w with stdout := w.stdout ++ [msg] }

/-- A logger call at the given level. -/
def logf (lvl : Level) (msg : String) (w : World) : World :=
  { w with logs := w.logs ++ [(lvl, msg)] }

/-- Go's `(*ss).SkipSpace` inside a `Scanf` call: white space is skipped, a newline is
consumed and reported (`false`), anything else is left in place. -/
def skipSpace : List Char → Bool × List Char
  | [] => (true, [])
  | c :: cs =>
    if c = '\n' then (false, cs)
    else if isSpace c then skipSpace cs
    else (true, c :: cs)

/-- Go's `fmt.Scanf("%s", &v)` for a string variable: the scanned word, if any, and
the input left.  The rune that ends the word is consumed with it. -/
def scanfString (input : List Char) : Option String × List Char :=
  match skipSpace input with
  | (false, rest) => (none, rest)
  | (true, []) => (none, [])
  | (true, c :: cs) =>
    (some (String.mk ((c :: cs).takeWhile (fun x => !isSpace x))),
     ((c :: cs).dropWhile (fun x => !isSpace x)).tail)

/-- Value of a run of decimal digits, most significant first. -/
def digitsValue (ds : List Char) : Nat :=
  ds.foldl (fun acc d => 10 * acc + (d.toNat - 0x30)) 0

/-- Go's `fmt.Scanf("%d", &v)` for a 64-bit signed variable: an optional sign, at
least one digit, and the value must fit in 64 bits.  The rune at which the
scan stops is consumed. -/
def scanfInt (input : List Char) : Option Int × List Char :=
  match skipSpace input with
  | (false, rest) => (none, rest)
  | (true, []) => (none, [])
  | (true, c :: cs) =>
    let neg := c = '-'
    let body := if c = '-' ∨ c = '+' then cs else c :: cs
    match body with
    | [] => (none, [])
    | d :: ds =>
      if isDigit d then
        let digits := (d :: ds).takeWhile isDigit
        let rest := ((d :: ds).dropWhile isDigit).tail
        let v : Int := if neg then -(digitsValue digits : Int) else (digitsValue digits : Int)
        if -(2 : Int) ^ 63 ≤ v ∧ v < (2 : Int) ^ 63 then (some v, rest) else (none, rest)
      else (none, ds)

/-- Go's `fmt.Scanf("%s", &v)` for an integer variable: `%s` is not a verb for
integers, so nothing is ever stored; white space and the rune looked at are
consumed. -/
def scanfBadVerb (input : List Char) : List Char :=
  match skipSpace input with
  | (false, rest) => rest
  | (true, []) => []
  | (true, _ :: cs) => cs

/-- Go's `(*bufio.Reader).ReadString('\n')`: the input up to and including the
first newline, or all of it when there is none. -/
def readString : List Char → List Char × List Char
  | [] => ([], [])
  | c :: cs =>
    if c = '\n' then ([c], cs)
    else ((readString cs).1 |> (c :: ·), (readString cs).2)

/-- Go's `strings.TrimSpace`: white space is removed at both ends. -/
def trimSpace (l : List Char) : List Char :=
  ((l.dropWhile isSpace).reverse.dropWhile isSpace).reverse

/-- The call `h.db.Exec(query, args...)`: the call is recorded and the database
answers. -/
def exec (query : String) (args : List Arg) (w : World) :
    Except String String × World :=
  (w.db w.calls ⟨query, args⟩, { w with calls := w.calls ++ [⟨query, args⟩] })

/-- The statement `fmt.Scanf("%s", &v)` for a variable of string kind
holding `v`: the value of the variable afterwards, and the world. -/
def scanString (v : String) (w : World) : String × World :=
  (((scanfString w.stdin).1).getD v, { w with stdin := (scanfString w.stdin).2 })

/-- The statement `fmt.Scanf("%d", &v)` for an integer variable holding
`v`. -/
def scanInt (v : Int) (w : World) : Int × World :=
  (((scanfInt w.stdin).1).getD v, { w with stdin := (scanfInt w.stdin).2 })

/-- The statement `fmt.Scanf("%s", &v)` for an integer variable holding
`v`. -/
def scanBadVerb (v : Int) (w : World) : Int × World :=
  (v, { w with stdin := scanfBadVerb w.stdin })

/-! ## The functions issuing the stored-procedure calls -/

/-- Lines 144-155.  The account type is the seventh argument of the call and
the interest rate the eighth, while the Go function takes them the other way
round. -/
def register (username password firstname lastname nationalID dateOfBirth : String)
    (interestRate : Int) (account : String) (w : World) : World :=
  match exec "CALL register($1, $2, $3, $4, $5, $6, $7, $8)"
      [.str username, .str password, .str firstname, .str lastname, .str nationalID,
       .str dateOfBirth, .str account, .int interestRate] w with
  | (.error err, w1) => logf .error ("Register error: " ++ err) w1
  | (.ok res, w1) =>
    { logf .info ("Successful register " ++ res ++ "\n") w1 with currentUsername := username }

/-- Lines 168-177. -/
def login (username password : String) (w : World) : World :=
  match exec "CALL login($1, $2)" [.str username, .str password] w with
  | (.error err, w1) => logf .error ("Login error: " ++ err) w1
  | (.ok res, w1) =>
    { logf .info ("Successful login " ++ res ++ "\n") w1 with currentUsername := username }

/-- Lines 190-198. -/
def deposit (amount : Int) (w : World) : World :=
  match exec "CALL deposit($1)" [.int amount] w with
  | (.error err, w1) => logf .error ("Deposit error: " ++ err) w1
  | (.ok res, w1) => logf .info ("Successful deposit " ++ res ++ "\n") w1

/-- Lines 211-219. -/
def withdraw (amount : Int) (w : World) : World :=
  match exec "CALL withdraw($1)" [.int amount] w with
  | (.error err, w1) => logf .error ("Withdraw error: " ++ err) w1
  | (.ok res, w1) => logf .info ("Successful withdraw " ++ res ++ "\n") w1

/-- Lines 235-243. -/
def transfer (amount : Int) (toAccount : Int) (w : World) : World :=
  match exec "CALL transfer($1, $2)" [.int amount, .int toAccount] w with
  | (.error err, w1) => logf .error ("Transfer error: " ++ err) w1
  | (.ok res, w1) => logf .info ("Successful transfer " ++ res ++ "\n") w1

/-- Lines 249-257. -/
def updateBalances (w : World) : World :=
  match exec "CALL updateBalances()" [] w with
  | (.error err, w1) => logf .error ("Update balances error: " ++ err) w1
  | (.ok res, w1) => logf .info ("Successful update balances " ++ res ++ "\n") w1

/-- Lines 267-273: nothing is logged when the call succeeds. -/
def checkBalance (w : World) : World :=
  match exec "CALL checkBalance()" [] w with
  | (.error err, w1) => logf .error ("Check balance error: " ++ err) w1
  | (.ok _, w1) => w1

/-! ## The handlers -/

/-- The loop `for account != client && account != employee` of
`handleRegister`, run for at most `fuel` tests of its condition; `none` when
the condition still holds after that. -/
def accountLoop : Nat → String → World → Option (String × World)
  | 0, _, _ => none
  | fuel + 1, account, w =>
    if account ≠ client ∧ account ≠ employee then
      accountLoop fuel
        (scanString account (println "Account type (client/employee): " w)).1
        (scanString account (println "Account type (client/employee): " w)).2
    else some (account, w)

/-- Lines 114-142.  The variable `interestRate` is scanned with the verb `%s`,
as in the source.  A scan on non-empty input consumes a rune, so the loop is
given one test more than there are runes to read: `none` is the case of the
loop spinning on exhausted input (`accountLoop_none_forever`). -/
def handleRegister (w : World) : Option World :=
  let interestRate : Int := 0
  let u := scanString "" (println "Username: " w)
  let p := scanString "" (println "Password: " u.2)
  let f := scanString "" (println "Firstname: " p.2)
  let l := scanString "" (println "Lastname: " f.2)
  let n := scanString "" (println "National ID: " l.2)
  let d := scanString "" (println "Date of birth (yy/mm/dd): " n.2)
  let a := scanString "" (println "Account type (client/employee): " d.2)
  (accountLoop (a.2.stdin.length + 1) a.1 a.2).map fun looped =>
    let r := scanBadVerb interestRate (println "Interest rate: " looped.2)
    register u.1 p.1 f.1 l.1 n.1 d.1 r.1 looped.1 r.2

/-- Lines 157-166. -/
def handleLogin (w : World) : World :=
  let u := scanString "" (println "Username:" w)
  let p := scanString "" (println "Password:" u.2)
  login u.1 p.1 p.2

/-- Lines 179-188. -/
def handleDeposit (w : World) : World :=
  if w.currentUsername ≠ "" then
    let a := scanInt 0 (println "How much?" w)
    deposit a.1 a.2
  else println "Error: you must login first!" w

/-- Lines 200-209. -/
def handleWithdraw (w : World) : World :=
  if w.currentUsername ≠ "" then
    let a := scanInt 0 (println "How much?" w)
    withdraw a.1 a.2
  else println "Error: you must login first!" w

/-- Lines 221-233. -/
def handleTransfer (w : World) : World :=
  if w.currentUsername ≠ "" then
    let a := scanInt 0 (println "How much?" w)
    let t := scanInt 0 (println "To which account number?" a.2)
    transfer a.1 t.1 t.2
  else println "Error: you must login first!" w

/-- Lines 245-247. -/
def handleUpdateBalances (w : World) : World :=
  updateBalances w

/-- Lines 259-265. -/
def handleCheckBalance (w : World) : World :=
  if w.currentUsername ≠ "" then checkBalance w
  else println "Error: you must login first!" w

/-! ## The dispatcher -/

/-- The two menu lines printed at the top of every round, followed by the
read of one line from standard input. -/
def promptAndRead (w : World) : List Char × World :=
  let w1 := println "Choose one of the following options:" w
  let w2 := println
    "1) register\n2) login\n3) deposit\n4) withdraw\n5) transfer\n6) update balances\n7) check balance"
    w1
  ((readString w2.stdin).1, { w2 with stdin := (readString w2.stdin).2 })

/-- The `switch userOption` of `main`. -/
def dispatch (userOption : String) (w : World) : Option World :=
  if userOption = "1" then handleRegister w
  else if userOption = "2" then some (handleLogin w)
  else if userOption = "3" then some (handleDeposit w)
  else if userOption = "4" then some (handleWithdraw w)
  else if userOption = "5" then some (handleTransfer w)
  else if userOption = "6" then some (handleUpdateBalances w)
  else if userOption = "7" then some (handleCheckBalance w)
  else some (println "Error: unknown user option!" w)

/-- One round of the `for true` loop of `main`. -/
def mainIteration (w : World) : Option World :=
  dispatch (String.mk (trimSpace (promptAndRead w).1)) (promptAndRead w).2

/-- The first `n` rounds of the loop of `main`. -/
def mainLoop : Nat → World → Option World
  | 0, w => some w
  | n + 1, w => (mainIteration w).bind (mainLoop n)

/-- The process as it stands when the loop of `main` is entered:
`currentUsername` has its zero value and nothing has been called. -/
def initial (input : List Char) (db : List Call → Call → Except String String) : World :=
  { currentUsername := "", stdin := input,
    stdout := ["Connected to the PostgreSQL database"], logs := [], calls := [], db := db }

/-! ## Worlds and predicates used to state the properties -/

/-- A database that accepts every call. -/
def dbOk : List Call → Call → Except String String := fun _ _ => .ok "ok"

/-- A database that refuses every call. -/
def dbFail : List Call → Call → Except String String := fun _ _ => .error "refused"

/-- The part of the world that only `db.Exec` and the assignments to
`currentUsername` touch: prompts and scans leave it alone. -/
def SameSession (w1 w : World) : Prop :=
  w1.currentUsername = w.currentUsername ∧ w1.calls = w.calls ∧ w1.db = w.db ∧ w1.logs = w.logs

/-- The call `c` is a `register` or a `login` submitting the username `u`. -/
def Submits (u : String) (c : Call) : Prop :=
  (c.query = "CALL register($1, $2, $3, $4, $5, $6, $7, $8)" ∨ c.query = "CALL login($1, $2)") ∧
    c.args.head? = some (.str u)

/-- A world in which `u` is the session username, nothing has been printed or
called, and `input` waits on standard input. -/
def loggedIn (u : String) (input : List Char) (db : List Call → Call → Except String String) :
    World :=
  { currentUsername := u, stdin := input, stdout := [], logs := [], calls := [], db := db }

/-- Each of the four gated handlers issues its stored-procedure call, exactly
one, and prints no "login first" message. -/
def PassesGate (w : World) : Prop :=
  (∃ a, (handleDeposit w).calls = w.calls ++ [⟨"CALL deposit($1)", [.int a]⟩]) ∧
  (∃ a, (handleWithdraw w).calls = w.calls ++ [⟨"CALL withdraw($1)", [.int a]⟩]) ∧
  (∃ a t, (handleTransfer w).calls = w.calls ++ [⟨"CALL transfer($1, $2)", [.int a, .int t]⟩]) ∧
  (handleCheckBalance w).calls = w.calls ++ [⟨"CALL checkBalance()", []⟩] ∧
  ∀ handler ∈ [handleDeposit, handleWithdraw, handleTransfer, handleCheckBalance],
    "Error: you must login first!" ∉ (handler w).stdout.drop w.stdout.length

/-- A word as `%s` scans it: at least one rune, none of them white space. -/
def IsWord (t : String) : Prop :=
  t.data ≠ [] ∧ ∀ c ∈ t.data, isSpace c = false

instance : DecidablePred IsWord := fun t => by
  unfold IsWord
  infer_instance

/-- The runes that reach standard input when each of the given words is typed
and followed by the return key. -/
def typeLines : List String → List Char
  | [] => []
  | t :: ts => t.data ++ '\n' :: typeLines ts

/-! ## Properties -/

/-! ## What each operation does to the fields of the world -/

@[simp]
theorem println_currentUsername (m : String) (w : World) :
    (println m w).currentUsername = w.currentUsername := rfl
@[simp]
theorem println_stdin (m : String) (w : World) : (println m w).stdin = w.stdin := rfl
@[simp]
theorem println_stdout (m : String) (w : World) :
    (println m w).stdout = w.stdout ++ [m] := rfl
@[simp]
theorem println_logs (m : String) (w : World) : (println m w).logs = w.logs := rfl
@[simp]
theorem println_calls (m : String) (w : World) : (println m w).calls = w.calls := rfl
@[simp]
theorem println_db (m : String) (w : World) : (println m w).db = w.db := rfl

@[simp]
theorem scanString_currentUsername (v : String) (w : World) :
    (scanString v w).2.currentUsername = w.currentUsername := rfl
@[simp]
theorem scanString_stdout (v : String) (w : World) :
    (scanString v w).2.stdout = w.stdout := rfl
@[simp]
theorem scanString_logs (v : String) (w : World) :
    (scanString v w).2.logs = w.logs := rfl
@[simp]
theorem scanString_calls (v : String) (w : World) :
    (scanString v w).2.calls = w.calls := rfl
@[simp]
theorem scanString_db (v : String) (w : World) : (scanString v w).2.db = w.db := rfl

@[simp]
theorem scanInt_currentUsername (v : Int) (w : World) :
    (scanInt v w).2.currentUsername = w.currentUsername := rfl
@[simp]
theorem scanInt_stdout (v : Int) (w : World) : (scanInt v w).2.stdout = w.stdout := rfl
@[simp]
theorem scanInt_logs (v : Int) (w : World) : (scanInt v w).2.logs = w.logs := rfl
@[simp]
theorem scanInt_calls (v : Int) (w : World) : (scanInt v w).2.calls = w.calls := rfl
@[simp]
theorem scanInt_db (v : Int) (w : World) : (scanInt v w).2.db = w.db := rfl

@[simp]
theorem scanBadVerb_value (v : Int) (w : World) : (scanBadVerb v w).1 = v := rfl
@[simp]
theorem scanBadVerb_currentUsername (v : Int) (w : World) :
    (scanBadVerb v w).2.currentUsername = w.currentUsername := rfl
@[simp]
theorem scanBadVerb_stdout (v : Int) (w : World) :
    (scanBadVerb v w).2.stdout = w.stdout := rfl
@[simp]
theorem scanBadVerb_logs (v : Int) (w : World) : (scanBadVerb v w).2.logs = w.logs := rfl
@[simp]
theorem scanBadVerb_calls (v : Int) (w : World) :
    (scanBadVerb v w).2.calls = w.calls := rfl
@[simp]
theorem scanBadVerb_db (v : Int) (w : World) : (scanBadVerb v w).2.db = w.db := rfl

theorem register_fields (u p f l n d : String) (r : Int) (a : String) (w : World) :
    (register u p f l n d r a w).calls = w.calls ++
        [⟨"CALL register($1, $2, $3, $4, $5, $6, $7, $8)",
          [.str u, .str p, .str f, .str l, .str n, .str d, .str a, .int r]⟩] ∧
      (register u p f l n d r a w).db = w.db ∧
      (register u p f l n d r a w).stdin = w.stdin ∧
      (register u p f l n d r a w).stdout = w.stdout := by
  unfold register exec
  split <;> rename_i h <;> simp only [Prod.mk.injEq] at h <;> obtain ⟨_, rfl⟩ := h <;>
    simp [logf]

theorem register_session (u p f l n d : String) (r : Int) (a : String) (w : World) :
    (∀ res, w.db w.calls ⟨"CALL register($1, $2, $3, $4, $5, $6, $7, $8)",
          [.str u, .str p, .str f, .str l, .str n, .str d, .str a, .int r]⟩ = .ok res →
        (register u p f l n d r a w).currentUsername = u) ∧
    (∀ err, w.db w.calls ⟨"CALL register($1, $2, $3, $4, $5, $6, $7, $8)",
          [.str u, .str p, .str f, .str l, .str n, .str d, .str a, .int r]⟩ = .error err →
        (register u p f l n d r a w).currentUsername = w.currentUsername) := by
  unfold register exec
  constructor <;> intro x hx <;> simp [hx, logf]

theorem login_fields (u p : String) (w : World) :
    (login u p w).calls = w.calls ++ [⟨"CALL login($1, $2)", [.str u, .str p]⟩] ∧
      (login u p w).db = w.db ∧ (login u p w).stdin = w.stdin ∧
      (login u p w).stdout = w.stdout := by
  unfold login exec
  split <;> rename_i h <;> simp only [Prod.mk.injEq] at h <;> obtain ⟨_, rfl⟩ := h <;>
    simp [logf]

theorem login_session (u p : String) (w : World) :
    (∀ res, w.db w.calls ⟨"CALL login($1, $2)", [.str u, .str p]⟩ = .ok res →
        (login u p w).currentUsername = u) ∧
    (∀ err, w.db w.calls ⟨"CALL login($1, $2)", [.str u, .str p]⟩ = .error err →
        (login u p w).currentUsername = w.currentUsername) := by
  unfold login exec
  constructor <;> intro x hx <;> simp [hx, logf]

theorem deposit_fields (a : Int) (w : World) :
    (deposit a w).calls = w.calls ++ [⟨"CALL deposit($1)", [.int a]⟩] ∧
      (deposit a w).db = w.db ∧ (deposit a w).stdin = w.stdin ∧
      (deposit a w).stdout = w.stdout ∧
      (deposit a w).currentUsername = w.currentUsername := by
  unfold deposit exec
  split <;> rename_i h <;> simp only [Prod.mk.injEq] at h <;> obtain ⟨_, rfl⟩ := h <;>
    simp [logf]

theorem withdraw_fields (a : Int) (w : World) :
    (withdraw a w).calls = w.calls ++ [⟨"CALL withdraw($1)", [.int a]⟩] ∧
      (withdraw a w).db = w.db ∧ (withdraw a w).stdin = w.stdin ∧
      (withdraw a w).stdout = w.stdout ∧
      (withdraw a w).currentUsername = w.currentUsername := by
  unfold withdraw exec
  split <;> rename_i h <;> simp only [Prod.mk.injEq] at h <;> obtain ⟨_, rfl⟩ := h <;>
    simp [logf]

theorem transfer_fields (a t : Int) (w : World) :
    (transfer a t w).calls = w.calls ++ [⟨"CALL transfer($1, $2)", [.int a, .int t]⟩] ∧
      (transfer a t w).db = w.db ∧ (transfer a t w).stdin = w.stdin ∧
      (transfer a t w).stdout = w.stdout ∧
      (transfer a t w).currentUsername = w.currentUsername := by
  unfold transfer exec
  split <;> rename_i h <;> simp only [Prod.mk.injEq] at h <;> obtain ⟨_, rfl⟩ := h <;>
    simp [logf]

theorem updateBalances_fields (w : World) :
    (updateBalances w).calls = w.calls ++ [⟨"CALL updateBalances()", []⟩] ∧
      (updateBalances w).db = w.db ∧ (updateBalances w).stdin = w.stdin ∧
      (updateBalances w).stdout = w.stdout ∧
      (updateBalances w).currentUsername = w.currentUsername := by
  unfold updateBalances exec
  split <;> rename_i h <;> simp only [Prod.mk.injEq] at h <;> obtain ⟨_, rfl⟩ := h <;>
    simp [logf]

theorem checkBalance_fields (w : World) :
    (checkBalance w).calls = w.calls ++ [⟨"CALL checkBalance()", []⟩] ∧
      (checkBalance w).db = w.db ∧ (checkBalance w).stdin = w.stdin ∧
      (checkBalance w).stdout = w.stdout ∧
      (checkBalance w).currentUsername = w.currentUsername := by
  unfold checkBalance exec
  split <;> rename_i h <;> simp only [Prod.mk.injEq] at h <;> obtain ⟨_, rfl⟩ := h <;>
    simp [logf]

/-! ## The authorization gate -/

/-- C1: in a world whose session username is empty, each of `handleDeposit`,
`handleWithdraw`, `handleTransfer` and `handleCheckBalance` prints
"Error: you must login first!" and nothing else, issues no call, reads
nothing from standard input and leaves the session username empty. -/
theorem gate_refuses_unauthenticated (w : World) (h : w.currentUsername = "") :
    ∀ handler ∈ [handleDeposit, handleWithdraw, handleTransfer, handleCheckBalance],
      (handler w).stdout = w.stdout ++ ["Error: you must login first!"] ∧
      (handler w).calls = w.calls ∧
      (handler w).stdin = w.stdin ∧
      (handler w).currentUsername = "" := by
  intro handler hmem
  simp only [List.mem_cons, List.mem_singleton, List.not_mem_nil, or_false] at hmem
  rcases hmem with rfl | rfl | rfl | rfl <;>
    simp [handleDeposit, handleWithdraw, handleTransfer, handleCheckBalance, h]

/-- C1, at a concrete world: nobody is logged in and "500" is waiting on
standard input. -/
theorem gate_refuses_unauthenticated_witness :
    (initial "500\n".data dbOk).currentUsername = "" ∧
    ∀ handler ∈ [handleDeposit, handleWithdraw, handleTransfer, handleCheckBalance],
      (handler (initial "500\n".data dbOk)).stdout =
        (initial "500\n".data dbOk).stdout ++ ["Error: you must login first!"] ∧
      (handler (initial "500\n".data dbOk)).calls = (initial "500\n".data dbOk).calls ∧
      (handler (initial "500\n".data dbOk)).stdin = (initial "500\n".data dbOk).stdin ∧
      (handler (initial "500\n".data dbOk)).currentUsername = "" :=
  ⟨rfl, gate_refuses_unauthenticated (initial "500\n".data dbOk) rfl⟩

/-- C2: `handleUpdateBalances` has no gate.  In every world, the
unauthenticated ones included, it issues the call `CALL updateBalances()` and
prints nothing; in the initial world the "login first" message is absent
from standard output and one call has been issued. -/
theorem updateBalances_not_gated :
    (∀ w : World, (handleUpdateBalances w).calls = w.calls ++ [⟨"CALL updateBalances()", []⟩] ∧
      (handleUpdateBalances w).stdout = w.stdout) ∧
    (initial [] dbOk).currentUsername = "" ∧
    (handleUpdateBalances (initial [] dbOk)).calls = [⟨"CALL updateBalances()", []⟩] ∧
    "Error: you must login first!" ∉ (handleUpdateBalances (initial [] dbOk)).stdout := by
  refine ⟨fun w => ⟨(updateBalances_fields w).1, (updateBalances_fields w).2.2.2.1⟩, rfl, ?_, ?_⟩
  · exact (updateBalances_fields _).1
  · rw [show (handleUpdateBalances (initial [] dbOk)).stdout = (initial [] dbOk).stdout from
      (updateBalances_fields _).2.2.2.1]
    decide

/-! ## Arguments of the calls -/

/-- C7: for every amount `a` and destination `d`, negative and zero
included, `deposit a` issues exactly one call, `CALL deposit($1)` with
arguments `[a]`; `withdraw a` exactly one, `CALL withdraw($1)` with `[a]`;
`transfer a d` exactly one, `CALL transfer($1, $2)` with `[a, d]`. -/
theorem amounts_forwarded_unchanged (a d : Int) (w : World) :
    (deposit a w).calls = w.calls ++ [⟨"CALL deposit($1)", [.int a]⟩] ∧
    (withdraw a w).calls = w.calls ++ [⟨"CALL withdraw($1)", [.int a]⟩] ∧
    (transfer a d w).calls = w.calls ++ [⟨"CALL transfer($1, $2)", [.int a, .int d]⟩] :=
  ⟨(deposit_fields a w).1, (withdraw_fields a w).1, (transfer_fields a d w).1⟩


example : ((mainIteration (initial " 8\n".data dbOk)).map (·.stdout)) =
    some ["Connected to the PostgreSQL database", "Choose one of the following options:",
      "1) register\n2) login\n3) deposit\n4) withdraw\n5) transfer\n6) update balances\n7) check balance",
      "Error: unknown user option!"] := by decide

/-! ## The registration handler -/

theorem sameSession_refl (w : World) : SameSession w w := ⟨rfl, rfl, rfl, rfl⟩

theorem sameSession_trans {a b c : World} (h1 : SameSession a b) (h2 : SameSession b c) :
    SameSession a c :=
  ⟨h1.1.trans h2.1, h1.2.1.trans h2.2.1, h1.2.2.1.trans h2.2.2.1, h1.2.2.2.trans h2.2.2.2⟩

theorem sameSession_prompt_scan (m v : String) (w : World) :
    SameSession (scanString v (println m w)).2 w := ⟨rfl, rfl, rfl, rfl⟩

/-- When the loop returns, the account type is one of the two constants, the
session is untouched and only prompts were printed. -/
theorem accountLoop_spec (fuel : Nat) :
    ∀ (account : String) (w : World) (account1 : String) (w1 : World),
      accountLoop fuel account w = some (account1, w1) →
      SameSession w1 w ∧ (account1 = client ∨ account1 = employee) ∧
      ∃ k, w1.stdout = w.stdout ++ List.replicate k "Account type (client/employee): " := by
  induction fuel with
  | zero => intro account w account1 w1 h; simp [accountLoop] at h
  | succ fuel ih =>
    intro account w account1 w1 h
    rw [accountLoop] at h
    split at h
    · obtain ⟨hs, ha, k, hk⟩ := ih _ _ _ _ h
      refine ⟨sameSession_trans hs (sameSession_prompt_scan _ _ _), ha, k + 1, ?_⟩
      rw [hk, scanString_stdout, println_stdout, List.replicate_succ, List.append_assoc]
      rfl
    · rename_i hc
      simp only [Option.some.injEq, Prod.mk.injEq] at h
      obtain ⟨rfl, rfl⟩ := h
      refine ⟨sameSession_refl _, ?_, 0, by simp⟩
      by_cases h1 : account = client
      · exact Or.inl h1
      · by_cases h2 : account = employee
        · exact Or.inr h2
        · exact absurd ⟨h1, h2⟩ hc

/-- Shape of a completed `handleRegister`: one `register` with the interest
rate at its zero value and an account type that is one of the two constants,
in a world that differs from the starting one by prompts and consumed input
only. -/
theorem handleRegister_spec (w w' : World) (h : handleRegister w = some w') :
    ∃ (w1 : World) (u p f l n d a : String),
      SameSession w1 w ∧ (a = client ∨ a = employee) ∧
      (∃ k, w1.stdout = w.stdout ++
        ["Username: ", "Password: ", "Firstname: ", "Lastname: ", "National ID: ",
         "Date of birth (yy/mm/dd): ", "Account type (client/employee): "] ++
        List.replicate k "Account type (client/employee): " ++ ["Interest rate: "]) ∧
      w' = register u p f l n d 0 a w1 := by
  unfold handleRegister at h
  simp only [Option.map_eq_some', scanBadVerb_value] at h
  obtain ⟨⟨account, w1⟩, hloop, h⟩ := h
  obtain ⟨hs, ha, k, hk⟩ := accountLoop_spec _ _ _ _ _ hloop
  refine ⟨_, _, _, _, _, _, _, account, ?_, ha, ⟨k, ?_⟩, h.symm⟩
  · refine sameSession_trans (b := w1) ?_ (sameSession_trans hs ?_) <;>
      simp [SameSession]
  · simp [hk]

/-! ## The session variable -/

theorem register_step (u p f l n d : String) (r : Int) (a : String) (w : World) :
    (register u p f l n d r a w).currentUsername = w.currentUsername ∨
    ∃ c res, (register u p f l n d r a w).calls = w.calls ++ [c] ∧ w.db w.calls c = .ok res ∧
      Submits (register u p f l n d r a w).currentUsername c := by
  rcases hdb : w.db w.calls ⟨"CALL register($1, $2, $3, $4, $5, $6, $7, $8)",
      [.str u, .str p, .str f, .str l, .str n, .str d, .str a, .int r]⟩ with err | res
  · exact Or.inl ((register_session u p f l n d r a w).2 err hdb)
  · refine Or.inr ⟨_, res, (register_fields u p f l n d r a w).1, hdb, Or.inl rfl, ?_⟩
    rw [(register_session u p f l n d r a w).1 res hdb]
    rfl

theorem login_step (u p : String) (w : World) :
    (login u p w).currentUsername = w.currentUsername ∨
    ∃ c res, (login u p w).calls = w.calls ++ [c] ∧ w.db w.calls c = .ok res ∧
      Submits (login u p w).currentUsername c := by
  rcases hdb : w.db w.calls ⟨"CALL login($1, $2)", [.str u, .str p]⟩ with err | res
  · exact Or.inl ((login_session u p w).2 err hdb)
  · refine Or.inr ⟨_, res, (login_fields u p w).1, hdb, Or.inr rfl, ?_⟩
    rw [(login_session u p w).1 res hdb]
    rfl

/-- The five handlers behind the gate never assign `currentUsername`, and
they only append to the list of calls. -/
theorem handler_frame (w : World) :
    ∀ handler ∈ [handleDeposit, handleWithdraw, handleTransfer, handleUpdateBalances,
        handleCheckBalance],
      (handler w).currentUsername = w.currentUsername ∧ (handler w).db = w.db ∧
      ∃ ext, (handler w).calls = w.calls ++ ext := by
  intro handler hmem
  simp only [List.mem_cons, List.mem_singleton, List.not_mem_nil, or_false] at hmem
  rcases hmem with rfl | rfl | rfl | rfl | rfl
  · unfold handleDeposit
    split
    · simp only [deposit_fields, scanInt_currentUsername, println_currentUsername, scanInt_db,
        println_db, scanInt_calls, println_calls, true_and]
      exact ⟨_, rfl⟩
    · exact ⟨rfl, rfl, [], by simp⟩
  · unfold handleWithdraw
    split
    · simp only [withdraw_fields, scanInt_currentUsername, println_currentUsername, scanInt_db,
        println_db, scanInt_calls, println_calls, true_and]
      exact ⟨_, rfl⟩
    · exact ⟨rfl, rfl, [], by simp⟩
  · unfold handleTransfer
    split
    · simp only [transfer_fields, scanInt_currentUsername, println_currentUsername, scanInt_db,
        println_db, scanInt_calls, println_calls, true_and]
      exact ⟨_, rfl⟩
    · exact ⟨rfl, rfl, [], by simp⟩
  · unfold handleUpdateBalances
    simp only [updateBalances_fields, true_and]
    exact ⟨_, rfl⟩
  · unfold handleCheckBalance
    split
    · simp only [checkBalance_fields, true_and]
      exact ⟨_, rfl⟩
    · exact ⟨rfl, rfl, [], by simp⟩

theorem sameSession_promptAndRead (w : World) : SameSession (promptAndRead w).2 w := by
  simp [SameSession, promptAndRead]

/-- One round of the dispatcher: the database is the same, calls are only
appended, and the session username is either the one before or the username
submitted by a `register` or `login` call of this round that succeeded. -/
theorem dispatch_session (opt : String) (w w' : World) (h : dispatch opt w = some w') :
    w'.db = w.db ∧ (∃ ext, w'.calls = w.calls ++ ext) ∧
    (w'.currentUsername = w.currentUsername ∨
      ∃ c res, w'.calls = w.calls ++ [c] ∧ w.db w.calls c = .ok res ∧
        Submits w'.currentUsername c) := by
  unfold dispatch at h
  split_ifs at h
  · obtain ⟨w1, u, p, f, l, n, d, a, hs, -, -, rfl⟩ := handleRegister_spec w w' h
    obtain ⟨hu, hc, hd, -⟩ := hs
    refine ⟨(register_fields u p f l n d 0 a w1).2.1.trans hd,
      ⟨_, hc ▸ (register_fields u p f l n d 0 a w1).1⟩, ?_⟩
    rw [← hu, ← hc, ← hd]
    exact register_step u p f l n d 0 a w1
  · simp only [Option.some.injEq] at h
    subst h
    unfold handleLogin
    refine ⟨?_, ⟨_, (login_fields _ _ _).1⟩, ?_⟩
    · simp [login_fields]
    · exact login_step _ _ _
  all_goals
    simp only [Option.some.injEq] at h
    subst h
  · have := handler_frame w handleDeposit (by simp)
    exact ⟨this.2.1, this.2.2, Or.inl this.1⟩
  · have := handler_frame w handleWithdraw (by simp)
    exact ⟨this.2.1, this.2.2, Or.inl this.1⟩
  · have := handler_frame w handleTransfer (by simp)
    exact ⟨this.2.1, this.2.2, Or.inl this.1⟩
  · have := handler_frame w handleUpdateBalances (by simp)
    exact ⟨this.2.1, this.2.2, Or.inl this.1⟩
  · have := handler_frame w handleCheckBalance (by simp)
    exact ⟨this.2.1, this.2.2, Or.inl this.1⟩
  · exact ⟨rfl, ⟨[], by simp⟩, Or.inl rfl⟩

theorem mainIteration_session (w w' : World) (h : mainIteration w = some w') :
    w'.db = w.db ∧ (∃ ext, w'.calls = w.calls ++ ext) ∧
    (w'.currentUsername = w.currentUsername ∨
      ∃ c res, w'.calls = w.calls ++ [c] ∧ w.db w.calls c = .ok res ∧
        Submits w'.currentUsername c) := by
  obtain ⟨hu, hc, hd, -⟩ := sameSession_promptAndRead w
  have := dispatch_session _ _ _ h
  rwa [hu, hc, hd] at this

theorem gate_closed (w : World) (h : w.currentUsername = "") :
    handleDeposit w = println "Error: you must login first!" w ∧
    handleWithdraw w = println "Error: you must login first!" w ∧
    handleTransfer w = println "Error: you must login first!" w ∧
    handleCheckBalance w = println "Error: you must login first!" w := by
  simp [handleDeposit, handleWithdraw, handleTransfer, handleCheckBalance, h]

theorem gate_open (w : World) (h : w.currentUsername ≠ "") : PassesGate w := by
  refine ⟨⟨(scanInt 0 (println "How much?" w)).1, ?_⟩,
    ⟨(scanInt 0 (println "How much?" w)).1, ?_⟩,
    ⟨(scanInt 0 (println "How much?" w)).1,
      (scanInt 0 (println "To which account number?" (scanInt 0 (println "How much?" w)).2)).1,
      ?_⟩, ?_, ?_⟩
  · rw [handleDeposit, if_pos h]; exact (deposit_fields _ _).1
  · rw [handleWithdraw, if_pos h]; exact (withdraw_fields _ _).1
  · rw [handleTransfer, if_pos h]; exact (transfer_fields _ _ _).1
  · rw [handleCheckBalance, if_pos h]; exact (checkBalance_fields _).1
  · intro handler hmem
    simp only [List.mem_cons, List.mem_singleton, List.not_mem_nil, or_false] at hmem
    rcases hmem with rfl | rfl | rfl | rfl
    · rw [handleDeposit, if_pos h, (deposit_fields _ _).2.2.2.1]
      simp
    · rw [handleWithdraw, if_pos h, (withdraw_fields _ _).2.2.2.1]
      simp
    · rw [handleTransfer, if_pos h, (transfer_fields _ _ _).2.2.2.1]
      simp
    · rw [handleCheckBalance, if_pos h, (checkBalance_fields _).2.2.2.1]
      simp

/-- C3 fails for the empty username: the database accepts `login("", "pw")`,
the session username is then the empty string, and the gate stays shut:
`handleDeposit` issues no call and prints "Error: you must login first!". -/
theorem empty_username_keeps_gate_shut :
    (initial "500\n".data dbOk).db (initial "500\n".data dbOk).calls
        ⟨"CALL login($1, $2)", [.str "", .str "pw"]⟩ = .ok "ok" ∧
    (login "" "pw" (initial "500\n".data dbOk)).currentUsername = "" ∧
    (handleDeposit (login "" "pw" (initial "500\n".data dbOk))).calls =
      (login "" "pw" (initial "500\n".data dbOk)).calls ∧
    (handleDeposit (login "" "pw" (initial "500\n".data dbOk))).stdout =
      (login "" "pw" (initial "500\n".data dbOk)).stdout ++ ["Error: you must login first!"] ∧
    ¬ PassesGate (login "" "pw" (initial "500\n".data dbOk)) := by
  refine ⟨rfl, rfl, ?_, ?_, fun hp => ?_⟩
  · rw [(gate_closed _ rfl).1]
    rfl
  · rw [(gate_closed _ rfl).1]
    rfl
  obtain ⟨a, ha⟩ := hp.1
  rw [(gate_closed _ rfl).1] at ha
  have := congrArg List.length ha
  simp at this

/-- C3, amended: when the call made by `register` or by `login` returns
without error the session username is exactly the username submitted, and if
that username is not the empty string each of `handleDeposit`,
`handleWithdraw`, `handleTransfer`, `handleCheckBalance` then issues its call
and prints no "login first" message. -/
theorem successful_login_sets_session (w : World) (u p f l n d a : String) (r : Int) :
    (∀ res, w.db w.calls ⟨"CALL register($1, $2, $3, $4, $5, $6, $7, $8)",
          [.str u, .str p, .str f, .str l, .str n, .str d, .str a, .int r]⟩ = .ok res →
        (register u p f l n d r a w).currentUsername = u ∧
        (u ≠ "" → PassesGate (register u p f l n d r a w))) ∧
    (∀ res, w.db w.calls ⟨"CALL login($1, $2)", [.str u, .str p]⟩ = .ok res →
        (login u p w).currentUsername = u ∧ (u ≠ "" → PassesGate (login u p w))) := by
  constructor
  · intro res hres
    have hu := (register_session u p f l n d r a w).1 res hres
    exact ⟨hu, fun hne => gate_open _ (by rw [hu]; exact hne)⟩
  · intro res hres
    have hu := (login_session u p w).1 res hres
    exact ⟨hu, fun hne => gate_open _ (by rw [hu]; exact hne)⟩

/-- C3, amended, at a concrete world: "alice" logs in against a database that
accepts the call. -/
theorem successful_login_sets_session_witness :
    (initial "500\n".data dbOk).db (initial "500\n".data dbOk).calls
        ⟨"CALL login($1, $2)", [.str "alice", .str "pw"]⟩ = .ok "ok" ∧
    "alice" ≠ "" ∧
    (login "alice" "pw" (initial "500\n".data dbOk)).currentUsername = "alice" ∧
    PassesGate (login "alice" "pw" (initial "500\n".data dbOk)) :=
  ⟨rfl, by decide,
   ((successful_login_sets_session (initial "500\n".data dbOk)
      "alice" "pw" "A" "B" "N1" "00/01/01" "client" 5).2 "ok" rfl).1,
   ((successful_login_sets_session (initial "500\n".data dbOk)
      "alice" "pw" "A" "B" "N1" "00/01/01" "client" 5).2 "ok" rfl).2 (by decide)⟩

/-- C4: the session username is assigned only by a `register` or `login`
whose call succeeded.  A `register` or `login` whose call returns an error
leaves it as it was; `deposit`, `withdraw`, `transfer`, `updateBalances`,
`checkBalance`, their handlers and the unknown-option branch leave it as it
was whatever the database answers; and a round of the dispatcher that changes
it has issued exactly one call, a `register` or `login` submitting the new
username, which the database accepted. -/
theorem session_assigned_only_by_login (w : World) :
    (∀ (u p f l n d a : String) (r : Int) (err : String),
      w.db w.calls ⟨"CALL register($1, $2, $3, $4, $5, $6, $7, $8)",
          [.str u, .str p, .str f, .str l, .str n, .str d, .str a, .int r]⟩ = .error err →
      (register u p f l n d r a w).currentUsername = w.currentUsername) ∧
    (∀ (u p err : String),
      w.db w.calls ⟨"CALL login($1, $2)", [.str u, .str p]⟩ = .error err →
      (login u p w).currentUsername = w.currentUsername) ∧
    (∀ a t : Int,
      (deposit a w).currentUsername = w.currentUsername ∧
      (withdraw a w).currentUsername = w.currentUsername ∧
      (transfer a t w).currentUsername = w.currentUsername ∧
      (updateBalances w).currentUsername = w.currentUsername ∧
      (checkBalance w).currentUsername = w.currentUsername) ∧
    (∀ handler ∈ [handleDeposit, handleWithdraw, handleTransfer, handleUpdateBalances,
        handleCheckBalance], (handler w).currentUsername = w.currentUsername) ∧
    (∀ opt : String, opt ∉ ["1", "2", "3", "4", "5", "6", "7"] →
      (dispatch opt w).map (fun x => x.currentUsername) = some w.currentUsername) ∧
    (∀ w', mainIteration w = some w' → w'.currentUsername ≠ w.currentUsername →
      ∃ c res, w'.calls = w.calls ++ [c] ∧ w.db w.calls c = .ok res ∧
        Submits w'.currentUsername c) := by
  refine ⟨?_, ?_, ?_, ?_, ?_, ?_⟩
  · intro u p f l n d a r err herr
    exact (register_session u p f l n d r a w).2 err herr
  · intro u p err herr
    exact (login_session u p w).2 err herr
  · intro a t
    exact ⟨(deposit_fields a w).2.2.2.2, (withdraw_fields a w).2.2.2.2,
      (transfer_fields a t w).2.2.2.2, (updateBalances_fields w).2.2.2.2,
      (checkBalance_fields w).2.2.2.2⟩
  · intro handler hmem
    exact (handler_frame w handler hmem).1
  · intro opt hopt
    simp only [List.mem_cons, List.mem_singleton, List.not_mem_nil, or_false, not_or] at hopt
    obtain ⟨h1, h2, h3, h4, h5, h6, h7⟩ := hopt
    simp [dispatch, h1, h2, h3, h4, h5, h6, h7]
  · intro w' hit hne
    rcases (mainIteration_session w w' hit).2.2 with h | h
    · exact absurd h hne
    · exact h

/-- C4, at a concrete world: "alice" is logged in, the database refuses
everything, and "bob" tries to register. -/
theorem session_assigned_only_by_login_witness :
    (loggedIn "alice" [] dbFail).db (loggedIn "alice" [] dbFail).calls
        ⟨"CALL register($1, $2, $3, $4, $5, $6, $7, $8)",
          [.str "bob", .str "pw", .str "B", .str "O", .str "N2", .str "99/01/01",
           .str "client", .int 3]⟩ = .error "refused" ∧
    (register "bob" "pw" "B" "O" "N2" "99/01/01" 3 "client"
        (loggedIn "alice" [] dbFail)).currentUsername =
      (loggedIn "alice" [] dbFail).currentUsername :=
  ⟨rfl, (session_assigned_only_by_login (loggedIn "alice" [] dbFail)).1
    "bob" "pw" "B" "O" "N2" "99/01/01" "client" 3 "refused" rfl⟩

/-- C8: from any world whose database accepts every call, `register` with
username `u`, password `p`, names `f` and `l`, national ID `n`, date of birth
`d`, account type `a` and interest rate `r`, then `deposit amt`, then
`checkBalance` issue exactly three calls in this order: the register
statement with `[u, p, f, l, n, d, a, r]`, the deposit statement with
`[amt]`, the check-balance statement with no argument; the session username
is `u` after the first step and after the third. -/
theorem register_deposit_checkBalance (w : World) (u p f l n d a : String) (r amt : Int)
    (hok : ∀ hist c, ∃ res, w.db hist c = .ok res) :
    (checkBalance (deposit amt (register u p f l n d r a w))).calls = w.calls ++
      [⟨"CALL register($1, $2, $3, $4, $5, $6, $7, $8)",
          [.str u, .str p, .str f, .str l, .str n, .str d, .str a, .int r]⟩,
       ⟨"CALL deposit($1)", [.int amt]⟩,
       ⟨"CALL checkBalance()", []⟩] ∧
    (register u p f l n d r a w).currentUsername = u ∧
    (checkBalance (deposit amt (register u p f l n d r a w))).currentUsername = u := by
  obtain ⟨res, hres⟩ := hok w.calls ⟨"CALL register($1, $2, $3, $4, $5, $6, $7, $8)",
          [.str u, .str p, .str f, .str l, .str n, .str d, .str a, .int r]⟩
  have hu := (register_session u p f l n d r a w).1 res hres
  refine ⟨?_, hu, ?_⟩
  · rw [(checkBalance_fields _).1, (deposit_fields _ _).1, (register_fields u p f l n d r a w).1]
    simp
  · rw [(checkBalance_fields _).2.2.2.2, (deposit_fields _ _).2.2.2.2, hu]

/-- C8, at the input of the specification: alice registers as a client with
interest rate 5, deposits 1000 and checks her balance. -/
theorem register_deposit_checkBalance_witness :
    (∀ hist c, ∃ res, (initial [] dbOk).db hist c = .ok res) ∧
    (checkBalance (deposit 1000
        (register "alice" "pw" "A" "B" "N1" "00/01/01" 5 "client" (initial [] dbOk)))).calls =
      (initial [] dbOk).calls ++
      [⟨"CALL register($1, $2, $3, $4, $5, $6, $7, $8)",
          [.str "alice", .str "pw", .str "A", .str "B", .str "N1", .str "00/01/01",
           .str "client", .int 5]⟩,
       ⟨"CALL deposit($1)", [.int 1000]⟩,
       ⟨"CALL checkBalance()", []⟩] ∧
    (register "alice" "pw" "A" "B" "N1" "00/01/01" 5 "client"
        (initial [] dbOk)).currentUsername = "alice" ∧
    (checkBalance (deposit 1000
        (register "alice" "pw" "A" "B" "N1" "00/01/01" 5 "client"
          (initial [] dbOk)))).currentUsername = "alice" :=
  ⟨fun _ _ => ⟨"ok", rfl⟩,
   register_deposit_checkBalance (initial [] dbOk) "alice" "pw" "A" "B" "N1" "00/01/01" "client"
     5 1000 (fun _ _ => ⟨"ok", rfl⟩)⟩

/-! ## The session over a whole run -/

theorem mainLoop_calls (rounds : Nat) :
    ∀ w w', mainLoop rounds w = some w' → w'.db = w.db ∧ ∃ ext, w'.calls = w.calls ++ ext := by
  induction rounds with
  | zero =>
    intro w w' h
    simp only [mainLoop, Option.some.injEq] at h
    subst h
    exact ⟨rfl, [], by simp⟩
  | succ rounds ih =>
    intro w w' h
    simp only [mainLoop, Option.bind_eq_some] at h
    obtain ⟨w1, h1, h2⟩ := h
    obtain ⟨hd1, ⟨e1, he1⟩, -⟩ := mainIteration_session w w1 h1
    obtain ⟨hd2, e2, he2⟩ := ih w1 w' h2
    exact ⟨hd2.trans hd1, e1 ++ e2, by rw [he2, he1, List.append_assoc]⟩

/-- C10 fails: "alice" is logged in, picks menu entry 2 and leaves both
fields empty; the database accepts the call and the session username is the
empty string afterwards. -/
theorem session_cleared_by_empty_login :
    (loggedIn "alice" "2\n\n\n".data dbOk).currentUsername ≠ "" ∧
    (mainIteration (loggedIn "alice" "2\n\n\n".data dbOk)).map (fun x => x.currentUsername) =
      some "" ∧
    (mainIteration (loggedIn "alice" "2\n\n\n".data dbOk)).map (fun x => x.calls) =
      some [⟨"CALL login($1, $2)", [.str "", .str ""]⟩] := by
  refine ⟨by decide, by decide, by decide⟩

/-- C10, amended: over any number of rounds of the dispatcher, whatever is
typed and whatever the database answers, a session username that was
non-empty is non-empty at the end unless, in between, a `register` or `login`
call submitting the empty username was accepted by the database. -/
theorem session_cleared_only_by_empty_login (rounds : Nat) :
    ∀ w w', mainLoop rounds w = some w' → w.currentUsername ≠ "" →
      w'.currentUsername ≠ "" ∨
      ∃ pre c post res, w'.calls = w.calls ++ pre ++ c :: post ∧
        w.db (w.calls ++ pre) c = .ok res ∧ Submits "" c := by
  induction rounds with
  | zero =>
    intro w w' h hne
    simp only [mainLoop, Option.some.injEq] at h
    subst h
    exact Or.inl hne
  | succ rounds ih =>
    intro w w' h hne
    simp only [mainLoop, Option.bind_eq_some] at h
    obtain ⟨w1, h1, h2⟩ := h
    obtain ⟨hd1, ⟨e1, he1⟩, hstep⟩ := mainIteration_session w w1 h1
    by_cases hw1 : w1.currentUsername = ""
    · rcases hstep with hsame | ⟨c, res, hc, hres, hsub⟩
      · exact absurd (hsame ▸ hw1) hne
      · obtain ⟨-, e2, he2⟩ := mainLoop_calls rounds w1 w' h2
        refine Or.inr ⟨[], c, e2, res, ?_, by simpa using hres, hw1 ▸ hsub⟩
        rw [he2, hc]
        simp
    · rcases ih w1 w' h2 hw1 with hfin | ⟨pre, c, post, res, hc, hres, hsub⟩
      · exact Or.inl hfin
      · refine Or.inr ⟨e1 ++ pre, c, post, res, ?_, ?_, hsub⟩
        · rw [hc, he1]
          simp
        · rw [← List.append_assoc, ← he1, ← hd1]
          exact hres

/-- C10, amended, at a concrete run: "alice" is logged in and makes one
deposit. -/
theorem session_cleared_only_by_empty_login_witness :
    mainLoop 1 (loggedIn "alice" "3\n500\n".data dbOk) =
      some (handleDeposit (promptAndRead (loggedIn "alice" "3\n500\n".data dbOk)).2) ∧
    (loggedIn "alice" "3\n500\n".data dbOk).currentUsername ≠ "" ∧
    ((handleDeposit (promptAndRead (loggedIn "alice" "3\n500\n".data dbOk)).2).currentUsername
        ≠ "" ∨
      ∃ pre c post res,
        (handleDeposit (promptAndRead (loggedIn "alice" "3\n500\n".data dbOk)).2).calls =
          (loggedIn "alice" "3\n500\n".data dbOk).calls ++ pre ++ c :: post ∧
        (loggedIn "alice" "3\n500\n".data dbOk).db
          ((loggedIn "alice" "3\n500\n".data dbOk).calls ++ pre) c = .ok res ∧
        Submits "" c) :=
  ⟨by rfl, by decide,
   session_cleared_only_by_empty_login 1 (loggedIn "alice" "3\n500\n".data dbOk) _ (by rfl)
     (by decide)⟩

/-! ## The dispatcher -/

/-- What a handler prints: lines appended to standard output, none of them
the unknown-option message. -/
theorem handler_output (w w' : World) :
    ∀ handler ∈ [handleRegister, fun x => some (handleLogin x), fun x => some (handleDeposit x),
        fun x => some (handleWithdraw x), fun x => some (handleTransfer x),
        fun x => some (handleUpdateBalances x), fun x => some (handleCheckBalance x)],
      handler w = some w' →
      ∃ ext, w'.stdout = w.stdout ++ ext ∧ "Error: unknown user option!" ∉ ext := by
  intro handler hmem h
  simp only [List.mem_cons, List.mem_singleton, List.not_mem_nil, or_false] at hmem
  rcases hmem with rfl | rfl | rfl | rfl | rfl | rfl | rfl
  · obtain ⟨w1, u, p, f, l, n, d, a, -, -, ⟨k, hk⟩, rfl⟩ := handleRegister_spec w w' h
    refine ⟨["Username: ", "Password: ", "Firstname: ", "Lastname: ", "National ID: ",
         "Date of birth (yy/mm/dd): ", "Account type (client/employee): "] ++
        List.replicate k "Account type (client/employee): " ++ ["Interest rate: "], ?_, ?_⟩
    · rw [(register_fields u p f l n d 0 a w1).2.2.2, hk]
      simp only [List.append_assoc]
    · simp only [List.mem_append, List.mem_cons, List.mem_singleton, List.not_mem_nil,
        List.mem_replicate, or_false, not_or, not_and]
      exact ⟨⟨by decide, fun _ => by decide⟩, by decide⟩
  all_goals
    simp only [Option.some.injEq] at h
    subst h
  · refine ⟨["Username:", "Password:"], ?_, by decide⟩
    unfold handleLogin
    simp [login_fields]
  · unfold handleDeposit
    split
    · exact ⟨["How much?"], by simp [deposit_fields], by decide⟩
    · exact ⟨["Error: you must login first!"], rfl, by decide⟩
  · unfold handleWithdraw
    split
    · exact ⟨["How much?"], by simp [withdraw_fields], by decide⟩
    · exact ⟨["Error: you must login first!"], rfl, by decide⟩
  · unfold handleTransfer
    split
    · exact ⟨["How much?", "To which account number?"], by simp [transfer_fields], by decide⟩
    · exact ⟨["Error: you must login first!"], rfl, by decide⟩
  · exact ⟨[], by simp [handleUpdateBalances, updateBalances_fields], by decide⟩
  · unfold handleCheckBalance
    split
    · exact ⟨[], by simp [checkBalance_fields], by decide⟩
    · exact ⟨["Error: you must login first!"], rfl, by decide⟩

/-- C6: one round of the dispatcher reads a line and trims it.  If the result
is none of "1" to "7" the round prints the two menu lines and
"Error: unknown user option!", calls no handler, issues no call, logs
nothing and leaves the session username as it was.  If the result is one of
"1" to "7" the round is the handler of that menu entry run after the menu was
printed and the line consumed, and the unknown-option message is not among
the lines the round prints. -/
theorem dispatcher_follows_trimmed_line (w : World) :
    (String.mk (trimSpace (readString w.stdin).1) ∉ ["1", "2", "3", "4", "5", "6", "7"] →
      mainIteration w = some (println "Error: unknown user option!" (promptAndRead w).2) ∧
      ∃ w', mainIteration w = some w' ∧
        w'.stdout = w.stdout ++ ["Choose one of the following options:",
          "1) register\n2) login\n3) deposit\n4) withdraw\n5) transfer\n6) update balances\n7) check balance",
          "Error: unknown user option!"] ∧
        w'.calls = w.calls ∧ w'.logs = w.logs ∧ w'.currentUsername = w.currentUsername ∧
        w'.stdin = (readString w.stdin).2) ∧
    (∀ entry ∈ [("1", handleRegister), ("2", fun x => some (handleLogin x)),
        ("3", fun x => some (handleDeposit x)), ("4", fun x => some (handleWithdraw x)),
        ("5", fun x => some (handleTransfer x)), ("6", fun x => some (handleUpdateBalances x)),
        ("7", fun x => some (handleCheckBalance x))],
      String.mk (trimSpace (readString w.stdin).1) = entry.1 →
        mainIteration w = entry.2 (promptAndRead w).2 ∧
        ∀ w', mainIteration w = some w' →
          "Error: unknown user option!" ∉ w'.stdout.drop w.stdout.length) := by
  constructor
  · intro hopt
    simp only [List.mem_cons, List.mem_singleton, List.not_mem_nil, or_false, not_or] at hopt
    obtain ⟨h1, h2, h3, h4, h5, h6, h7⟩ := hopt
    have hrun : mainIteration w =
        some (println "Error: unknown user option!" (promptAndRead w).2) := by
      have hline : (promptAndRead w).1 = (readString w.stdin).1 := rfl
      simp [mainIteration, dispatch, hline, h1, h2, h3, h4, h5, h6, h7]
    refine ⟨hrun, _, hrun, ?_, rfl, rfl, rfl, rfl⟩
    simp [promptAndRead]
  · intro entry hmem hopt
    have hline : (promptAndRead w).1 = (readString w.stdin).1 := rfl
    have hrun : mainIteration w = entry.2 (promptAndRead w).2 := by
      simp only [List.mem_cons, List.mem_singleton, List.not_mem_nil, or_false] at hmem
      unfold mainIteration dispatch
      rw [hline, hopt]
      rcases hmem with rfl | rfl | rfl | rfl | rfl | rfl | rfl <;> simp
    refine ⟨hrun, fun w' hw' => ?_⟩
    rw [hrun] at hw'
    have hmem2 : entry.2 ∈ [handleRegister, fun x => some (handleLogin x),
        fun x => some (handleDeposit x), fun x => some (handleWithdraw x),
        fun x => some (handleTransfer x), fun x => some (handleUpdateBalances x),
        fun x => some (handleCheckBalance x)] := by
      simp only [List.mem_cons, List.mem_singleton, List.not_mem_nil, or_false] at hmem
      rcases hmem with rfl | rfl | rfl | rfl | rfl | rfl | rfl <;> simp
    obtain ⟨ext, hext, hnot⟩ := handler_output _ w' entry.2 hmem2 hw'
    have hout : (promptAndRead w).2.stdout = w.stdout ++
        ["Choose one of the following options:",
          "1) register\n2) login\n3) deposit\n4) withdraw\n5) transfer\n6) update balances\n7) check balance"] := by
      simp [promptAndRead]
    rw [hext, hout, List.append_assoc, List.drop_left]
    simp only [List.mem_append, List.mem_cons, List.mem_singleton, List.not_mem_nil, or_false,
      not_or]
    exact ⟨⟨by decide, by decide⟩, hnot⟩

/-- C6, at the lines " 8" and " 3 ": the first gets the unknown-option
message, the second is handled by `handleDeposit`. -/
theorem dispatcher_follows_trimmed_line_witness :
    String.mk (trimSpace (readString (initial " 8\n".data dbOk).stdin).1) ∉
      ["1", "2", "3", "4", "5", "6", "7"] ∧
    mainIteration (initial " 8\n".data dbOk) =
      some (println "Error: unknown user option!" (promptAndRead (initial " 8\n".data dbOk)).2) ∧
    String.mk (trimSpace (readString (initial " 3 \n".data dbOk).stdin).1) = "3" ∧
    mainIteration (initial " 3 \n".data dbOk) =
      some (handleDeposit (promptAndRead (initial " 3 \n".data dbOk)).2) :=
  ⟨by decide,
   ((dispatcher_follows_trimmed_line (initial " 8\n".data dbOk)).1 (by decide)).1,
   by decide,
   ((dispatcher_follows_trimmed_line (initial " 3 \n".data dbOk)).2
      ("3", fun x => some (handleDeposit x)) (by simp) (by decide)).1⟩

/-! ## Scanning words typed on lines of their own -/

theorem isWord_client : IsWord client := ⟨by decide, by decide⟩

theorem isWord_employee : IsWord employee := ⟨by decide, by decide⟩

theorem skipSpace_word (c : Char) (cs : List Char) (h : isSpace c = false) :
    skipSpace (c :: cs) = (true, c :: cs) := by
  have hnl : c ≠ '\n' := by
    rintro rfl
    exact absurd h (by decide)
  simp [skipSpace, hnl, h]

theorem scanfString_line (t : String) (rest : List Char) (ht : IsWord t) :
    scanfString (t.data ++ '\n' :: rest) = (some t, rest) := by
  obtain ⟨hne, hall⟩ := ht
  obtain ⟨c, cs, hcs⟩ := List.exists_cons_of_ne_nil hne
  have hskip : skipSpace (t.data ++ '\n' :: rest) = (true, c :: (cs ++ '\n' :: rest)) := by
    rw [hcs, List.cons_append]
    exact skipSpace_word c _ (hall c (by simp [hcs]))
  have hpos : ∀ a ∈ t.data, (fun x => !isSpace x) a = true := by
    intro a ha
    simp [hall a ha]
  have hnl : ¬ ((fun x => !isSpace x) '\n' = true) := by decide
  unfold scanfString
  rw [hskip]
  simp only
  rw [← List.cons_append, ← hcs, List.takeWhile_append_of_pos hpos,
    List.dropWhile_append_of_pos hpos,
    List.takeWhile_cons_of_neg (p := fun x => !isSpace x) hnl,
    List.dropWhile_cons_of_neg (p := fun x => !isSpace x) hnl]
  simp

theorem scanString_line (t v : String) (rest : List Char) (w : World) (ht : IsWord t)
    (h : w.stdin = t.data ++ '\n' :: rest) :
    (scanString v w).1 = t ∧ (scanString v w).2.stdin = rest := by
  unfold scanString
  rw [h, scanfString_line t rest ht]
  exact ⟨rfl, rfl⟩

/-- The loop of `handleRegister` on a run of rejected words followed by an
accepted one: it returns the accepted word after one prompt per word read. -/
theorem accountLoop_lines (bad : List String) :
    ∀ (fuel : Nat) (account : String) (w : World) (good : String) (rest : List Char),
      (account ≠ client ∧ account ≠ employee) →
      (∀ t ∈ bad, IsWord t ∧ t ≠ client ∧ t ≠ employee) →
      (good = client ∨ good = employee) →
      w.stdin = typeLines bad ++ typeLines [good] ++ rest →
      w.stdin.length < fuel →
      ∃ w', accountLoop fuel account w = some (good, w') ∧ w'.stdin = rest ∧
        SameSession w' w ∧
        w'.stdout = w.stdout ++
          List.replicate (bad.length + 1) "Account type (client/employee): " := by
  induction bad with
  | nil =>
    intro fuel account w good rest hinv _ hgood hin hfuel
    have hword : IsWord good := by
      rcases hgood with rfl | rfl
      · exact isWord_client
      · exact isWord_employee
    have hin2 : (println "Account type (client/employee): " w).stdin =
        good.data ++ '\n' :: rest := by
      simpa [typeLines] using hin
    obtain ⟨hv, hs⟩ := scanString_line good account rest _ hword hin2
    have hlen : 2 ≤ w.stdin.length := by
      have := List.length_pos.mpr hword.1
      rw [println_stdin] at hin2
      rw [hin2]
      simp only [List.length_append, List.length_cons]
      omega
    obtain ⟨k, rfl⟩ : ∃ k, fuel = k + 2 := ⟨fuel - 2, by omega⟩
    refine ⟨(scanString account (println "Account type (client/employee): " w)).2, ?_, hs,
      sameSession_prompt_scan _ _ _, by simp⟩
    rw [accountLoop, if_pos hinv, hv, accountLoop,
      if_neg (by rcases hgood with rfl | rfl <;> simp)]
  | cons b bs ih =>
    intro fuel account w good rest hinv hbad hgood hin hfuel
    obtain ⟨hbw, hb1, hb2⟩ := hbad b (by simp)
    have hin2 : (println "Account type (client/employee): " w).stdin =
        b.data ++ '\n' :: (typeLines bs ++ typeLines [good] ++ rest) := by
      simpa [typeLines] using hin
    obtain ⟨hv, hs⟩ := scanString_line b account _ _ hbw hin2
    obtain ⟨k, rfl⟩ : ∃ k, fuel = k + 1 := ⟨fuel - 1, by omega⟩
    have hfuel2 : (scanString account
        (println "Account type (client/employee): " w)).2.stdin.length < k := by
      rw [println_stdin] at hin2
      rw [hin2] at hfuel
      rw [hs]
      simp only [List.length_append, List.length_cons] at hfuel ⊢
      omega
    obtain ⟨w', hrun, hrest, hsess, hout⟩ :=
      ih k b _ good rest ⟨hb1, hb2⟩ (fun t ht => hbad t (by simp [ht])) hgood hs hfuel2
    refine ⟨w', ?_, hrest, sameSession_trans hsess (sameSession_prompt_scan _ _ _), ?_⟩
    · rw [accountLoop, if_pos hinv, hv]
      exact hrun
    · rw [hout, scanString_stdout, println_stdout, List.append_assoc]
      simp [List.replicate_succ]

theorem prompt_scan_line (m t v : String) (rest : List Char) (w : World) (ht : IsWord t)
    (h : w.stdin = t.data ++ '\n' :: rest) :
    (scanString v (println m w)).1 = t ∧ (scanString v (println m w)).2.stdin = rest ∧
      (scanString v (println m w)).2.calls = w.calls ∧
      (scanString v (println m w)).2.stdout = w.stdout ++ [m] :=
  ⟨(scanString_line t v rest _ ht h).1, (scanString_line t v rest _ ht h).2, rfl, rfl⟩

/-- The six fields read, `handleRegister` is what remains of it. -/
theorem handleRegister_eq (w W1 W2 W3 W4 W5 W6 : World) (u p f l n d : String)
    (e1 : scanString "" (println "Username: " w) = (u, W1))
    (e2 : scanString "" (println "Password: " W1) = (p, W2))
    (e3 : scanString "" (println "Firstname: " W2) = (f, W3))
    (e4 : scanString "" (println "Lastname: " W3) = (l, W4))
    (e5 : scanString "" (println "National ID: " W4) = (n, W5))
    (e6 : scanString "" (println "Date of birth (yy/mm/dd): " W5) = (d, W6)) :
    handleRegister w = (accountLoop
          ((scanString "" (println "Account type (client/employee): " W6)).2.stdin.length + 1)
          (scanString "" (println "Account type (client/employee): " W6)).1
          (scanString "" (println "Account type (client/employee): " W6)).2).map
        (fun looped => register u p f l n d 0 looped.1
          (scanBadVerb 0 (println "Interest rate: " looped.2)).2) := by
  unfold handleRegister
  simp only [e1, e2, e3, e4, e5, e6, scanBadVerb_value]

/-- The part of `handleRegister` from the account-type prompt on, with the six
fields already read. -/
theorem handleRegister_tail (w : World) (u p f l n d : String) (bad : List String)
    (good : String) (rest : List Char)
    (hbad : ∀ t ∈ bad, IsWord t ∧ t ≠ client ∧ t ≠ employee)
    (hgood : good = client ∨ good = employee)
    (hin : w.stdin = typeLines bad ++ typeLines [good] ++ rest) :
    ∃ w', (accountLoop
          ((scanString "" (println "Account type (client/employee): " w)).2.stdin.length + 1)
          (scanString "" (println "Account type (client/employee): " w)).1
          (scanString "" (println "Account type (client/employee): " w)).2).map
        (fun looped => register u p f l n d 0 looped.1
          (scanBadVerb 0 (println "Interest rate: " looped.2)).2) = some w' ∧
      w'.calls = w.calls ++
        [⟨"CALL register($1, $2, $3, $4, $5, $6, $7, $8)",
          [.str u, .str p, .str f, .str l, .str n, .str d, .str good, .int 0]⟩] ∧
      w'.stdout = w.stdout ++ ["Account type (client/employee): "] ++
        List.replicate bad.length "Account type (client/employee): " ++ ["Interest rate: "] := by
  have hloop : ∃ w1, accountLoop
        ((scanString "" (println "Account type (client/employee): " w)).2.stdin.length + 1)
        (scanString "" (println "Account type (client/employee): " w)).1
        (scanString "" (println "Account type (client/employee): " w)).2 = some (good, w1) ∧
      w1.calls = w.calls ∧
      w1.stdout = w.stdout ++ ["Account type (client/employee): "] ++
        List.replicate bad.length "Account type (client/employee): " := by
    cases bad with
    | nil =>
      have hword : IsWord good := by
        rcases hgood with rfl | rfl
        · exact isWord_client
        · exact isWord_employee
      have hin7 : w.stdin = good.data ++ '\n' :: rest := by
        simpa [typeLines] using hin
      obtain ⟨ha1, -⟩ := prompt_scan_line "Account type (client/employee): " good "" rest w
        hword hin7
      refine ⟨(scanString "" (println "Account type (client/employee): " w)).2, ?_, rfl,
        by simp⟩
      rw [ha1, accountLoop, if_neg (by rcases hgood with rfl | rfl <;> simp)]
    | cons b bs =>
      obtain ⟨hbw, hb1, hb2⟩ := hbad b (by simp)
      have hin7 : w.stdin = b.data ++ '\n' :: (typeLines bs ++ typeLines [good] ++ rest) := by
        simpa [typeLines] using hin
      obtain ⟨ha1, ha2, -, -⟩ := prompt_scan_line "Account type (client/employee): " b "" _ w
        hbw hin7
      obtain ⟨w1, hrun, -, hsess, hout⟩ := accountLoop_lines bs _ b _ good rest ⟨hb1, hb2⟩
        (fun t ht => hbad t (by simp [ht])) hgood ha2 (Nat.lt_succ_self _)
      refine ⟨w1, ?_, ?_, ?_⟩
      · rw [ha1]
        exact hrun
      · rw [hsess.2.1]
        rfl
      · rw [hout]
        simp [List.replicate_succ]
  obtain ⟨w1, hrun, hcalls, hout⟩ := hloop
  refine ⟨register u p f l n d 0 good (scanBadVerb 0 (println "Interest rate: " w1)).2,
    ?_, ?_, ?_⟩
  · rw [hrun]
    rfl
  · rw [(register_fields _ _ _ _ _ _ _ _ _).1]
    simp [hcalls]
  · rw [(register_fields _ _ _ _ _ _ _ _ _).2.2.2]
    simp [hout]

/-- C5 fails without a line discipline.  First run: "bogus" is typed with a
blank before the return key, then "client"; one word is rejected, yet the
account-type prompt is printed three times, that is two re-prompts, because
the scan of "bogus" consumes the blank and the next scan meets the newline.
Second run: an empty line, then "client"; no word is rejected, yet there is
one re-prompt.  Both runs end in one register call with "client". -/
theorem blank_or_empty_line_reprompts :
    (handleRegister (initial "alice\npw\nA\nB\nN1\n00/01/01\nbogus \nclient\n5\n".data dbOk)).map
        (fun x => (x.stdout, x.calls)) =
      some (["Connected to the PostgreSQL database",
          "Username: ", "Password: ", "Firstname: ", "Lastname: ", "National ID: ",
          "Date of birth (yy/mm/dd): ", "Account type (client/employee): ",
          "Account type (client/employee): ", "Account type (client/employee): ",
          "Interest rate: "],
        [⟨"CALL register($1, $2, $3, $4, $5, $6, $7, $8)",
          [.str "alice", .str "pw", .str "A", .str "B", .str "N1", .str "00/01/01",
           .str "client", .int 0]⟩]) ∧
    (handleRegister (initial "alice\npw\nA\nB\nN1\n00/01/01\n\nclient\n5\n".data dbOk)).map
        (fun x => (x.stdout, x.calls)) =
      some (["Connected to the PostgreSQL database",
          "Username: ", "Password: ", "Firstname: ", "Lastname: ", "National ID: ",
          "Date of birth (yy/mm/dd): ", "Account type (client/employee): ",
          "Account type (client/employee): ", "Interest rate: "],
        [⟨"CALL register($1, $2, $3, $4, $5, $6, $7, $8)",
          [.str "alice", .str "pw", .str "A", .str "B", .str "N1", .str "00/01/01",
           .str "client", .int 0]⟩]) := by
  constructor <;> decide

/-- C5, amended: each of the six fields before the account type is typed as a
word (at least one rune, no white space) alone on a line ended by a newline,
then, in the same way, the words `bad`, none of them "client" or "employee",
then `good`, which is one of the two.  `handleRegister` prints the
account-type prompt once and once more for each word of `bad`, and issues
exactly one call, the register statement with `good` as seventh argument.
Moreover, whatever is typed, a `handleRegister` that returns has issued
exactly one call, a register statement whose seventh argument is "client" or
"employee". -/
theorem account_type_asked_until_valid (w : World) (u p f l n d : String) (bad : List String)
    (good : String) (rest : List Char)
    (hfields : ∀ t ∈ [u, p, f, l, n, d], IsWord t)
    (hbad : ∀ t ∈ bad, IsWord t ∧ t ≠ client ∧ t ≠ employee)
    (hgood : good = client ∨ good = employee)
    (hin : w.stdin = typeLines [u, p, f, l, n, d] ++ typeLines bad ++ typeLines [good] ++ rest) :
    (∃ w', handleRegister w = some w' ∧
      (∃ rate, w'.calls = w.calls ++
        [⟨"CALL register($1, $2, $3, $4, $5, $6, $7, $8)",
          [.str u, .str p, .str f, .str l, .str n, .str d, .str good, .int rate]⟩]) ∧
      w'.stdout = w.stdout ++
        ["Username: ", "Password: ", "Firstname: ", "Lastname: ", "National ID: ",
         "Date of birth (yy/mm/dd): ", "Account type (client/employee): "] ++
        List.replicate bad.length "Account type (client/employee): " ++ ["Interest rate: "]) ∧
    (∀ w0 w1, handleRegister w0 = some w1 →
      ∃ (u0 p0 f0 l0 n0 d0 a0 : String) (rate : Int), (a0 = "client" ∨ a0 = "employee") ∧
        w1.calls = w0.calls ++
          [⟨"CALL register($1, $2, $3, $4, $5, $6, $7, $8)",
            [.str u0, .str p0, .str f0, .str l0, .str n0, .str d0, .str a0, .int rate]⟩]) := by
  constructor
  · simp only [List.mem_cons, List.mem_singleton, List.not_mem_nil, or_false,
      forall_eq_or_imp, forall_eq] at hfields
    obtain ⟨hu, hp, hf, hl, hn, hd⟩ := hfields
    simp only [typeLines, List.append_assoc, List.cons_append, List.nil_append] at hin
    obtain ⟨⟨U, W1⟩, e1⟩ : ∃ x, scanString "" (println "Username: " w) = x := ⟨_, rfl⟩
    obtain ⟨⟨P, W2⟩, e2⟩ : ∃ x, scanString "" (println "Password: " W1) = x := ⟨_, rfl⟩
    obtain ⟨⟨F, W3⟩, e3⟩ : ∃ x, scanString "" (println "Firstname: " W2) = x := ⟨_, rfl⟩
    obtain ⟨⟨L, W4⟩, e4⟩ : ∃ x, scanString "" (println "Lastname: " W3) = x := ⟨_, rfl⟩
    obtain ⟨⟨N, W5⟩, e5⟩ : ∃ x, scanString "" (println "National ID: " W4) = x := ⟨_, rfl⟩
    obtain ⟨⟨D, W6⟩, e6⟩ : ∃ x, scanString "" (println "Date of birth (yy/mm/dd): " W5) = x :=
      ⟨_, rfl⟩
    have k1 := scanString_line u "" _ (println "Username: " w) hu hin
    rw [e1] at k1
    have c1 : W1.calls = w.calls ∧ W1.stdout = w.stdout ++ ["Username: "] := by
      rw [show W1 = (scanString "" (println "Username: " w)).2 by rw [e1]]; exact ⟨rfl, rfl⟩
    have k2 := scanString_line p "" _ (println "Password: " W1) hp k1.2
    rw [e2] at k2
    have c2 : W2.calls = W1.calls ∧ W2.stdout = W1.stdout ++ ["Password: "] := by
      rw [show W2 = (scanString "" (println "Password: " W1)).2 by rw [e2]]; exact ⟨rfl, rfl⟩
    have k3 := scanString_line f "" _ (println "Firstname: " W2) hf k2.2
    rw [e3] at k3
    have c3 : W3.calls = W2.calls ∧ W3.stdout = W2.stdout ++ ["Firstname: "] := by
      rw [show W3 = (scanString "" (println "Firstname: " W2)).2 by rw [e3]]; exact ⟨rfl, rfl⟩
    have k4 := scanString_line l "" _ (println "Lastname: " W3) hl k3.2
    rw [e4] at k4
    have c4 : W4.calls = W3.calls ∧ W4.stdout = W3.stdout ++ ["Lastname: "] := by
      rw [show W4 = (scanString "" (println "Lastname: " W3)).2 by rw [e4]]; exact ⟨rfl, rfl⟩
    have k5 := scanString_line n "" _ (println "National ID: " W4) hn k4.2
    rw [e5] at k5
    have c5 : W5.calls = W4.calls ∧ W5.stdout = W4.stdout ++ ["National ID: "] := by
      rw [show W5 = (scanString "" (println "National ID: " W4)).2 by rw [e5]]; exact ⟨rfl, rfl⟩
    have k6 := scanString_line d "" _ (println "Date of birth (yy/mm/dd): " W5) hd k5.2
    rw [e6] at k6
    have c6 : W6.calls = W5.calls ∧ W6.stdout = W5.stdout ++ ["Date of birth (yy/mm/dd): "] := by
      rw [show W6 = (scanString "" (println "Date of birth (yy/mm/dd): " W5)).2 by rw [e6]]
      exact ⟨rfl, rfl⟩
    simp only at k1 k2 k3 k4 k5 k6
    obtain ⟨rfl, -⟩ := k1
    obtain ⟨rfl, -⟩ := k2
    obtain ⟨rfl, -⟩ := k3
    obtain ⟨rfl, -⟩ := k4
    obtain ⟨rfl, -⟩ := k5
    obtain ⟨rfl, k6⟩ := k6
    obtain ⟨w', hrun, hcalls, hout⟩ := handleRegister_tail W6 U P F L N D bad good rest hbad hgood
      (by rw [k6]; simp [typeLines])
    refine ⟨w', ?_, ⟨0, ?_⟩, ?_⟩
    · rw [handleRegister_eq w W1 W2 W3 W4 W5 W6 U P F L N D e1 e2 e3 e4 e5 e6]
      exact hrun
    · rw [hcalls, c6.1, c5.1, c4.1, c3.1, c2.1, c1.1]
    · rw [hout, c6.2, c5.2, c4.2, c3.2, c2.2, c1.2]
      simp
  · intro w0 w1 h
    obtain ⟨w2, u0, p0, f0, l0, n0, d0, a0, hs, ha, -, rfl⟩ := handleRegister_spec w0 w1 h
    refine ⟨u0, p0, f0, l0, n0, d0, a0, 0, ha, ?_⟩
    rw [(register_fields _ _ _ _ _ _ _ _ _).1, hs.2.1]

/-- C5, amended, at the input of the specification: "bogus", then "client",
each on a line of its own. -/
theorem account_type_asked_until_valid_witness :
    (∀ t ∈ ["alice", "pw", "A", "B", "N1", "00/01/01"], IsWord t) ∧
    (∀ t ∈ ["bogus"], IsWord t ∧ t ≠ client ∧ t ≠ employee) ∧
    ("client" = client ∨ "client" = employee) ∧
    (initial "alice\npw\nA\nB\nN1\n00/01/01\nbogus\nclient\n5\n".data dbOk).stdin =
      typeLines ["alice", "pw", "A", "B", "N1", "00/01/01"] ++ typeLines ["bogus"] ++
        typeLines ["client"] ++ "5\n".data ∧
    ∃ w', handleRegister (initial "alice\npw\nA\nB\nN1\n00/01/01\nbogus\nclient\n5\n".data dbOk) =
        some w' ∧
      (∃ rate, w'.calls =
        (initial "alice\npw\nA\nB\nN1\n00/01/01\nbogus\nclient\n5\n".data dbOk).calls ++
        [⟨"CALL register($1, $2, $3, $4, $5, $6, $7, $8)",
          [.str "alice", .str "pw", .str "A", .str "B", .str "N1", .str "00/01/01",
           .str "client", .int rate]⟩]) ∧
      w'.stdout =
        (initial "alice\npw\nA\nB\nN1\n00/01/01\nbogus\nclient\n5\n".data dbOk).stdout ++
        ["Username: ", "Password: ", "Firstname: ", "Lastname: ", "National ID: ",
         "Date of birth (yy/mm/dd): ", "Account type (client/employee): "] ++
        List.replicate ["bogus"].length "Account type (client/employee): " ++
        ["Interest rate: "] :=
  ⟨by decide, by decide, Or.inl rfl, by decide,
   (account_type_asked_until_valid
      (initial "alice\npw\nA\nB\nN1\n00/01/01\nbogus\nclient\n5\n".data dbOk)
      "alice" "pw" "A" "B" "N1" "00/01/01" ["bogus"] "client" "5\n".data
      (by decide) (by decide) (Or.inl rfl) (by decide)).1⟩

/-- C9: "5" is typed at the "Interest rate:" prompt, all other fields being
valid; the register call issued carries the interest rate 0, not 5. -/
theorem typed_interest_rate_is_dropped :
    (handleRegister (initial "alice\npw\nA\nB\nN1\n00/01/01\nclient\n5\n".data dbOk)).map
        (fun x => x.calls) =
      some [⟨"CALL register($1, $2, $3, $4, $5, $6, $7, $8)",
        [.str "alice", .str "pw", .str "A", .str "B", .str "N1", .str "00/01/01",
         .str "client", .int 0]⟩] := by
  decide

/-! ## The bound on the account-type loop loses nothing -/

theorem skipSpace_length (l : List Char) :
    (skipSpace l).2.length ≤ l.length ∧
      ((skipSpace l).1 = false → (skipSpace l).2.length < l.length) := by
  induction l with
  | nil => simp [skipSpace]
  | cons c cs ih =>
    unfold skipSpace
    split_ifs
    · simp
    · exact ⟨Nat.le_succ_of_le ih.1, fun h => Nat.lt_succ_of_lt (ih.2 h)⟩
    · simp

/-- A `%s` scan of non-empty input consumes at least one rune. -/
theorem scanfString_consumes (input : List Char) (h : input ≠ []) :
    (scanfString input).2.length < input.length := by
  have hpos : 0 < input.length := List.length_pos.mpr h
  have hskip := skipSpace_length input
  unfold scanfString
  split
  · rename_i rest heq
    rw [heq] at hskip
    exact hskip.2 rfl
  · simpa using hpos
  · rename_i c cs heq
    rw [heq] at hskip
    have hdrop := (List.dropWhile_sublist (fun x => !isSpace x) (l := c :: cs)).length_le
    have h1 := hskip.1
    simp only [List.length_cons, List.length_tail] at h1 hdrop ⊢
    omega

theorem accountLoop_stuck (fuel : Nat) :
    ∀ (account : String) (w : World), w.stdin = [] → (account ≠ client ∧ account ≠ employee) →
      accountLoop fuel account w = none := by
  induction fuel with
  | zero => intro account w _ _; rfl
  | succ fuel ih =>
    intro account w hin hinv
    have hscan : scanString account (println "Account type (client/employee): " w) =
        (account, { println "Account type (client/employee): " w with stdin := [] }) := by
      unfold scanString
      rw [println_stdin, hin]
      rfl
    rw [accountLoop, if_pos hinv, hscan]
    exact ih account _ rfl hinv

/-- The bound `stdin.length + 1` that `handleRegister` gives the loop is never
what stops it: if the loop is still running after that many tests, it is
still running after any number of tests. -/
theorem accountLoop_none_forever (fuel : Nat) :
    ∀ (account : String) (w : World), w.stdin.length < fuel →
      accountLoop fuel account w = none → ∀ more, accountLoop more account w = none := by
  induction fuel with
  | zero => intro account w hlen; exact absurd hlen (Nat.not_lt_zero _)
  | succ fuel ih =>
    intro account w hlen hnone more
    by_cases hinv : account ≠ client ∧ account ≠ employee
    · by_cases hin : w.stdin = []
      · exact accountLoop_stuck more account w hin hinv
      · rw [accountLoop, if_pos hinv] at hnone
        have hless : (scanString account
            (println "Account type (client/employee): " w)).2.stdin.length < fuel := by
          have := scanfString_consumes w.stdin hin
          show (scanfString w.stdin).2.length < fuel
          omega
        cases more with
        | zero => rfl
        | succ more =>
          rw [accountLoop, if_pos hinv]
          exact ih _ _ hless hnone more
    · rw [accountLoop, if_neg hinv] at hnone
      exact absurd hnone (by simp)

/-- A loop that returns within some number of tests returns the same with any
larger number. -/
theorem accountLoop_more_fuel (fuel : Nat) :
    ∀ (account : String) (w : World) (r : String × World),
      accountLoop fuel account w = some r → ∀ extra, accountLoop (fuel + extra) account w = some r := by
  induction fuel with
  | zero => intro account w r h; simp [accountLoop] at h
  | succ fuel ih =>
    intro account w r h extra
    rw [Nat.add_right_comm, accountLoop]
    rw [accountLoop] at h
    split_ifs at h ⊢
    · exact ih _ _ r h extra
    · exact h

end KimBank
